import Mathlib

/-!
Formal model of the LDAP connectivity diagnostic implemented by the
`ldap_test` request handler in `python-ldap-login/app.py`.

The handler is a linear procedure: load config strings, validate them,
resolve the bind identity, check the CA certificate file, probe DNS and
TCP, open an LDAP session (implicit TLS on port 636, otherwise STARTTLS),
bind, and always run a cleanup step.  All interaction with the outside
world (file system, DNS, TCP, the LDAP client library) is modelled by a
`World` value carrying the result each external operation would produce;
the handler itself is then a pure function from configuration,
credentials and `World` to the ordered log, the run outcome and the list
of TLS options it set.

Wall-clock timestamps (`now_stamp`) are not modelled: they are opaque
strings attached to every entry and no property depends on them.
-/

namespace HealthChecks

/-- A log entry as produced by `add_log` (`DebugEntry` in app.py); the
wall-clock `timestamp` field is omitted. -/
structure DebugEntry where
  message : String
  level : String
deriving DecidableEq, Repr

/-- Python's substring test `needle in haystack`, on char lists. -/
def listInfixCheck (needle : List Char) : List Char → Bool
  | [] => needle.isEmpty
  | c :: rest => needle.isPrefixOf (c :: rest) || listInfixCheck needle rest

/-- Python's `needle in haystack` for strings (substring containment). -/
def pyIn (needle haystack : String) : Bool :=
  listInfixCheck needle.data haystack.data

/-- Python's `str.strip()` (both-ends whitespace removal), modelled over
the character list; covers the ASCII whitespace the repository uses. -/
def pyStrip (s : String) : String :=
  ⟨((s.data.dropWhile Char.isWhitespace).reverse.dropWhile Char.isWhitespace).reverse⟩

/-- Python's `str.lower()`, modelled characterwise (ASCII). -/
def pyLower (s : String) : String :=
  ⟨s.data.map Char.toLower⟩

/-- Digit-run acceptor for Python `int`: decimal digits with single
underscores allowed between digits (leading digit checked by `pyNum`). -/
def pyDigitsAux : List Char → Nat → Option Nat
  | [], acc => some acc
  | '_' :: c :: rest, acc =>
      if c.isDigit then pyDigitsAux rest (acc * 10 + (c.toNat - 48)) else none
  | c :: rest, acc =>
      if c.isDigit then pyDigitsAux rest (acc * 10 + (c.toNat - 48)) else none

/-- A nonempty digit run starting with a digit. -/
def pyNum (cs : List Char) : Option Nat :=
  match cs with
  | [] => none
  | c :: _ => if c.isDigit then pyDigitsAux cs 0 else none

/-- Model of Python `int(s)` on a decimal string literal: surrounding
whitespace, an optional sign, then digits (underscore-separated groups
allowed); `none` models `ValueError`. -/
def pythonInt (s : String) : Option Int :=
  match (pyStrip s).data with
  | '+' :: rest => (pyNum rest).map (fun n => (n : Int))
  | '-' :: rest => (pyNum rest).map (fun n => -(n : Int))
  | cs => (pyNum cs).map (fun n => (n : Int))

/-- The four configuration strings read from `.env` (app.py lines
175-178), before stripping. -/
structure Config where
  host : String
  portRaw : String
  caCertFile : String
  domain : String
deriving DecidableEq, Repr

/-- Result of `open(ca_cert_file).read()`: the content, or one of the two
exceptions the handler catches (`FileNotFoundError`, `PermissionError`). -/
inductive CAReadResult where
  | ok (content : String)
  | notFound
  | permissionDenied
deriving DecidableEq, Repr

/-- Result of `socket.getaddrinfo`: the extracted address strings, or a
`socket.gaierror` rendered as a message. -/
inductive DNSResult where
  | ok (ips : List String)
  | gaierror (msg : String)
deriving DecidableEq, Repr

/-- Result of `socket.create_connection`: success, `socket.timeout`, or
another `socket.error` rendered as a message. -/
inductive TCPResult where
  | ok
  | timeout
  | sockError (msg : String)
deriving DecidableEq, Repr

/-- Payload `exc.args[0]` of a generic `ldap.LDAPError`: a dict with optional
`desc` and `info` fields (missing `info` modelled as `""`, matching the
handler's falsy test), or any non-dict payload rendered as a string.
An empty `args` tuple behaves as `dict none ""`. -/
inductive LdapErrArgs where
  | dict (desc : Option String) (info : String)
  | other (repr : String)
deriving DecidableEq, Repr

/-- An exception raised inside the handler's LDAP `try` block, one
constructor per `except` clause (app.py lines 296-323). -/
inductive BindExc where
  | invalidCredentials
  | serverDown (msg : String)
  | connectError (msg : String)
  | ldapTimeout
  | otherLdapError (name : String) (args : LdapErrArgs)
  | socketTimeout
  | osError (msg : String) (errno : Int)
deriving DecidableEq, Repr

/-- The behaviour of the external world during one run: what each
external operation returns, and which (if any) exception each LDAP call
raises.  `set_option` calls are modelled as never raising. -/
structure World where
  caRead : CAReadResult
  dns : DNSResult
  tcp : TCPResult
  initExc : Option BindExc
  startTlsExc : Option BindExc
  bindExc : Option BindExc
  unbindOk : Bool
deriving DecidableEq, Repr

/-- Modelled from the spec: the final outcome classification (spec §3).
The source renders only the log; `Outcome` names the handler branch that
terminated the run, per spec §4.1 step 9 (generic protocol errors and OS
errors are grouped with connectivity failures). -/
inductive Outcome where
  | authenticatedSuccess
  | authenticationFailed
  | connectivityFailed
  | configInvalid
deriving DecidableEq, Repr

/-- Whether a TLS option was set process-wide (`ldap.set_option`) or on
the connection (`connection.set_option`). -/
inductive OptTarget where
  | globalOpt
  | connOpt
deriving DecidableEq, Repr

/-- The `set_option` side effects the handler performs, in order. -/
inductive OptEvent where
  | caCertFileOpt (target : OptTarget) (path : String)
  | requireCertAllow (target : OptTarget)
  | protocolVersion3
  | networkTimeout10
  | newCtxReload
deriving DecidableEq, Repr

/-- Everything one run produces: the ordered log, the outcome, and the
TLS options that were set. -/
structure RunResult where
  logs : List DebugEntry
  outcome : Outcome
  opts : List OptEvent
deriving DecidableEq, Repr

/-- The port after the parse at app.py lines 180-185: default 389, kept
on an empty or unparsable port string. -/
def parsedPort (portRaw : String) : Int :=
  if portRaw = "" then 389
  else
    match pythonInt portRaw with
    | some n => n
    | none => 389

/-- The error entry logged when the port string fails to parse. -/
def portParseLogs (portRaw : String) : List DebugEntry :=
  if portRaw = "" then []
  else
    match pythonInt portRaw with
    | some _ => []
    | none => [⟨"ERROR: Invalid LDAP port: " ++ portRaw, "error"⟩]

/-- The entries logged before config validation (app.py lines 172-198,
POST path): startup banner, port parse, config echo, CA-file notice and
the authentication attempt notice. -/
def preLogs (host portRaw domain ca username : String) : List DebugEntry :=
  [⟨"LDAP Test Started", "info"⟩] ++ portParseLogs portRaw ++
  [⟨"AD Config loaded - Host: " ++ (if host = "" then "N/A" else host), "info"⟩,
   ⟨"AD Config - Domain: " ++ (if domain = "" then "N/A" else domain), "info"⟩,
   ⟨"AD Config - Port: " ++
     (if portRaw = "" then "N/A" else toString (parsedPort portRaw)), "info"⟩] ++
  (if ca = "" then [] else [⟨"CA cert file configured: " ++ ca, "info"⟩]) ++
  [⟨"Attempting to authenticate user: " ++ username, "info"⟩]

/-- The bind identity (app.py lines 205-206): the username verbatim when
it contains `@` or no domain is configured, else `username@domain`. -/
def loginUsername (username domain : String) : String :=
  if pyIn "@" username || domain == "" then username
  else username ++ "@" ++ domain

/-- The CA certificate check and global CA option (app.py lines
213-231): read the file, classify content/exception, then set
`OPT_X_TLS_CACERTFILE` unconditionally; without a CA path, only the
system-certificates notice. -/
def caPhase (ca : String) (r : CAReadResult) : List DebugEntry × List OptEvent :=
  if ca = "" then
    ([⟨"No CA certificate configured - using system certificates", "info"⟩], [])
  else
    ([⟨"Loading CA certificate from: " ++ ca, "info"⟩] ++
     (match r with
      | .ok content =>
          if pyIn "BEGIN CERTIFICATE" content then
            [⟨"CA certificate file format: PEM (valid)", "info"⟩]
          else
            [⟨"WARNING: CA certificate may not be in PEM format", "error"⟩]
      | .notFound =>
          [⟨"ERROR: CA certificate file not found: " ++ ca, "error"⟩]
      | .permissionDenied =>
          [⟨"ERROR: Cannot read CA certificate file (permission denied): " ++ ca,
            "error"⟩]) ++
     [⟨"Set OPT_X_TLS_CACERTFILE: " ++ ca, "info"⟩],
     [.caCertFileOpt .globalOpt ca])

/-- DNS resolution check (app.py lines 238-244); the resolved address
set is deduplicated before display. -/
def dnsLogs (host : String) (r : DNSResult) : List DebugEntry :=
  [⟨"Resolving hostname: " ++ host, "info"⟩] ++
  match r with
  | .ok ips =>
      [⟨"DNS resolved to: " ++ String.intercalate ", " ips.eraseDups, "info"⟩]
  | .gaierror msg =>
      [⟨"ERROR: DNS resolution failed - " ++ msg, "error"⟩]

/-- The `host:port` string as rendered in the TCP log lines. -/
def hostPort (host : String) (port : Int) : String :=
  host ++ ":" ++ toString port

/-- TCP reachability probe (app.py lines 247-255). -/
def tcpLogs (host : String) (port : Int) (r : TCPResult) : List DebugEntry :=
  [⟨"Testing TCP connectivity to " ++ hostPort host port, "info"⟩] ++
  match r with
  | .ok => [⟨"TCP connection successful to " ++ hostPort host port, "info"⟩]
  | .timeout =>
      [⟨"ERROR: TCP connection timed out to " ++ hostPort host port, "error"⟩]
  | .sockError msg =>
      [⟨"ERROR: TCP connection failed - " ++ msg, "error"⟩]

/-- The entries the `except` chain logs for an exception (app.py lines
296-323); every entry has level `error`. -/
def handleExcLogs (e : BindExc) : List DebugEntry :=
  match e with
  | .invalidCredentials =>
      [⟨"ERROR: Invalid credentials - authentication failed", "error"⟩]
  | .serverDown msg =>
      [⟨"ERROR: LDAP server is down or unreachable", "error"⟩,
       ⟨"Details: " ++ msg, "error"⟩] ++
      (if pyIn "certificate" (pyLower msg) then
        [⟨"HINT: This may be a TLS/SSL certificate issue", "error"⟩]
       else [])
  | .connectError msg =>
      [⟨"ERROR: Could not connect to LDAP server", "error"⟩,
       ⟨"Details: " ++ msg, "error"⟩]
  | .ldapTimeout =>
      [⟨"ERROR: LDAP operation timed out", "error"⟩]
  | .otherLdapError name args =>
      [⟨"LDAP ERROR: " ++ name, "error"⟩] ++
      (match args with
       | .dict desc info =>
           [⟨"Description: " ++ desc.getD "Unknown error", "error"⟩] ++
           (if info == "" then [] else [⟨"Info: " ++ info, "error"⟩])
       | .other r => [⟨"Error details: " ++ r, "error"⟩])
  | .socketTimeout =>
      [⟨"ERROR: Connection timed out", "error"⟩]
  | .osError msg errno =>
      [⟨"OS ERROR: " ++ msg, "error"⟩,
       ⟨"Error number: " ++ toString errno, "error"⟩]

/-- The outcome classifying each `except` branch (spec §4.1 step 9). -/
def excOutcome (e : BindExc) : Outcome :=
  match e with
  | .invalidCredentials => .authenticationFailed
  | _ => .connectivityFailed

/-- The single entry of the `finally` block (app.py lines 324-332):
which message depends on whether a connection object existed and, if so,
whether `unbind_s` succeeded. -/
def cleanupLog (connected unbindOk : Bool) : DebugEntry :=
  if connected then
    if unbindOk then ⟨"LDAP connection closed", "info"⟩
    else ⟨"LDAP connection cleanup (no active connection)", "info"⟩
  else ⟨"No LDAP connection was established", "info"⟩

/-- The connection-level options set after `ldap.initialize` succeeds
(app.py lines 268-284), with their log entries. -/
def connSetupLogs (ca : String) : List DebugEntry × List OptEvent :=
  ([⟨"LDAP connection initialized", "info"⟩,
    ⟨"Set protocol version: LDAPv3", "info"⟩,
    ⟨"Set network timeout: 10 seconds", "info"⟩,
    ⟨"Connection-level OPT_X_TLS_REQUIRE_CERT: ALLOW", "info"⟩] ++
   (if ca = "" then [] else [⟨"Connection-level OPT_X_TLS_CACERTFILE set", "info"⟩]) ++
   [⟨"TLS context reloaded with new options", "info"⟩],
   [.protocolVersion3, .networkTimeout10, .requireCertAllow .connOpt] ++
   (if ca = "" then [] else [.caCertFileOpt .connOpt ca]) ++
   [.newCtxReload])

/-- The bind attempt (app.py lines 292-294) and, on an exception, its
handler entries. -/
def bindLogs (lu : String) (bindExc : Option BindExc) : List DebugEntry × Outcome :=
  ([⟨"Attempting LDAP bind for user: " ++ lu, "info"⟩] ++
   (match bindExc with
    | none => [⟨"SUCCESS: User authenticated successfully!", "success"⟩]
    | some e => handleExcLogs e),
   match bindExc with
   | none => .authenticatedSuccess
   | some e => excOutcome e)

/-- The LDAP session `try`/`except`/`finally` block (app.py lines
257-332): initialize, connection options, STARTTLS for plaintext mode,
bind, and the guaranteed cleanup entry. -/
def sessionPhase (useSsl : Bool) (ca host : String) (port : Int) (lu : String)
    (w : World) : RunResult :=
  let uri := (if useSsl then "ldaps" else "ldap") ++ "://" ++ hostPort host port
  let initLog : List DebugEntry :=
    [⟨"Initializing LDAP connection: " ++ uri, "info"⟩]
  match w.initExc with
  | some e =>
      { logs := initLog ++ handleExcLogs e ++ [cleanupLog false w.unbindOk],
        outcome := excOutcome e, opts := [] }
  | none =>
      let setup := connSetupLogs ca
      if useSsl then
        let b := bindLogs lu w.bindExc
        { logs := initLog ++ setup.1 ++ b.1 ++ [cleanupLog true w.unbindOk],
          outcome := b.2, opts := setup.2 }
      else
        let startL : List DebugEntry := [⟨"Starting TLS upgrade (STARTTLS)...", "info"⟩]
        match w.startTlsExc with
        | some e =>
            { logs := initLog ++ setup.1 ++ startL ++ handleExcLogs e ++
                [cleanupLog true w.unbindOk],
              outcome := excOutcome e, opts := setup.2 }
        | none =>
            let b := bindLogs lu w.bindExc
            { logs := initLog ++ setup.1 ++ startL ++
                [⟨"STARTTLS completed successfully", "success"⟩] ++ b.1 ++
                [cleanupLog true w.unbindOk],
              outcome := b.2, opts := setup.2 }

/-- The diagnostic run: the POST branch of the `ldap_test` handler
(app.py lines 171-332), as a pure function of the raw configuration
strings, the submitted credentials, and the external `World`. -/
def ldapTest (cfg : Config) (usernameRaw password : String) (w : World) : RunResult :=
  let host := pyStrip cfg.host
  let portRaw := pyStrip cfg.portRaw
  let ca := pyStrip cfg.caCertFile
  let domain := pyStrip cfg.domain
  let username := pyStrip usernameRaw
  let port := parsedPort portRaw
  let pre := preLogs host portRaw domain ca username
  if host = "" then
    { logs := pre ++ [⟨"ERROR: LDAP host missing in .env", "error"⟩],
      outcome := .configInvalid, opts := [] }
  else if username = "" ∨ password = "" then
    { logs := pre ++ [⟨"ERROR: Username or password missing", "error"⟩],
      outcome := .configInvalid, opts := [] }
  else
    let lu := loginUsername username domain
    let useSsl := port == 636
    let modeLog : List DebugEntry :=
      [⟨"Attempting authentication with: " ++ lu, "info"⟩,
       ⟨"SSL/TLS mode: " ++
         (if useSsl then "LDAPS (implicit SSL)" else "LDAP (plain or STARTTLS)"),
         "info"⟩]
    let caP := caPhase ca w.caRead
    let allowL : List DebugEntry :=
      [⟨"Set OPT_X_TLS_REQUIRE_CERT: OPT_X_TLS_ALLOW (request cert, continue if invalid)",
        "info"⟩]
    let sess := sessionPhase useSsl ca host port lu w
    { logs := pre ++ modeLog ++ caP.1 ++ allowL ++ dnsLogs host w.dns ++
        tcpLogs host port w.tcp ++ sess.logs,
      outcome := sess.outcome,
      opts := caP.2 ++ [.requireCertAllow .globalOpt] ++ sess.opts }

/-! ## Log-classification predicates -/

/-- The three possible messages of the cleanup (`finally`) entry. -/
def isCleanupMsg (m : String) : Bool :=
  m == "LDAP connection closed" ||
  m == "LDAP connection cleanup (no active connection)" ||
  m == "No LDAP connection was established"

/-- The cleanup entries of a log. -/
def cleanupEntries (l : List DebugEntry) : List DebugEntry :=
  l.filter fun e => isCleanupMsg e.message

/-- How many cleanup entries a run logged. -/
def cleanupCount (r : RunResult) : Nat :=
  (cleanupEntries r.logs).length

/-- The error-level entries of a log. -/
def errorEntries (l : List DebugEntry) : List DebugEntry :=
  l.filter fun e => e.level == "error"

/-- Whether `m` starts with `q`. -/
def msgStartsWith (q m : String) : Bool :=
  q.data.isPrefixOf m.data

/-- Messages of the DNS-resolution step. -/
def isDnsMsg (m : String) : Bool :=
  msgStartsWith "Resolving hostname: " m ||
  msgStartsWith "DNS resolved to: " m ||
  msgStartsWith "ERROR: DNS resolution failed - " m

/-- Messages of the TCP-probe step. -/
def isTcpMsg (m : String) : Bool :=
  msgStartsWith "Testing TCP connectivity to " m ||
  msgStartsWith "TCP connection successful to " m ||
  msgStartsWith "ERROR: TCP connection timed out to " m ||
  msgStartsWith "ERROR: TCP connection failed - " m

/-- Messages of the bind step. -/
def isBindMsg (m : String) : Bool :=
  msgStartsWith "Attempting LDAP bind for user: " m ||
  m == "SUCCESS: User authenticated successfully!" ||
  m == "ERROR: Invalid credentials - authentication failed"

/-- Messages of any DNS, TCP or bind step. -/
def isStepMsg (m : String) : Bool :=
  isDnsMsg m || isTcpMsg m || isBindMsg m

/-- The exact message of the STARTTLS attempt entry. -/
def startTlsMsg : String := "Starting TLS upgrade (STARTTLS)..."

/-- Whether a log contains an entry with exactly message `t`. -/
def containsMsg (t : String) (l : List DebugEntry) : Bool :=
  l.any fun e => e.message == t

/-- The run validated its configuration: host, username and password all
nonempty after stripping (the `else` branch of app.py lines 200-203). -/
def validInput (cfg : Config) (usernameRaw password : String) : Prop :=
  pyStrip cfg.host ≠ "" ∧ pyStrip usernameRaw ≠ "" ∧ password ≠ ""

instance (cfg : Config) (u p : String) : Decidable (validInput cfg u p) := by
  unfold validInput; infer_instance

/-- Holds when p cannot be extended into any of the three cleanup messages. -/
def cleanupSafe (p : String) : Bool :=
  !(p.data.isPrefixOf "LDAP connection closed".data) &&
  !(p.data.isPrefixOf "LDAP connection cleanup (no active connection)".data) &&
  !(p.data.isPrefixOf "No LDAP connection was established".data)

/-- Holds when p cannot be extended into the STARTTLS attempt message. -/
def startTlsSafe (p : String) : Bool :=
  !(p.data.isPrefixOf startTlsMsg.data)

/-- Holds when p is incomparable with every step-message template and
cannot be extended into either exact step message. -/
def stepSafe (p : String) : Bool :=
  (!("Resolving hostname: ".data.isPrefixOf p.data) &&
   !(p.data.isPrefixOf "Resolving hostname: ".data)) &&
  (!("DNS resolved to: ".data.isPrefixOf p.data) &&
   !(p.data.isPrefixOf "DNS resolved to: ".data)) &&
  (!("ERROR: DNS resolution failed - ".data.isPrefixOf p.data) &&
   !(p.data.isPrefixOf "ERROR: DNS resolution failed - ".data)) &&
  (!("Testing TCP connectivity to ".data.isPrefixOf p.data) &&
   !(p.data.isPrefixOf "Testing TCP connectivity to ".data)) &&
  (!("TCP connection successful to ".data.isPrefixOf p.data) &&
   !(p.data.isPrefixOf "TCP connection successful to ".data)) &&
  (!("ERROR: TCP connection timed out to ".data.isPrefixOf p.data) &&
   !(p.data.isPrefixOf "ERROR: TCP connection timed out to ".data)) &&
  (!("ERROR: TCP connection failed - ".data.isPrefixOf p.data) &&
   !(p.data.isPrefixOf "ERROR: TCP connection failed - ".data)) &&
  (!("Attempting LDAP bind for user: ".data.isPrefixOf p.data) &&
   !(p.data.isPrefixOf "Attempting LDAP bind for user: ".data)) &&
  !(p.data.isPrefixOf "SUCCESS: User authenticated successfully!".data) &&
  !(p.data.isPrefixOf "ERROR: Invalid credentials - authentication failed".data)

/-! ## Prefix-disagreement machinery

A log message built as `fixed-template ++ payload` can never equal (or
start with) an unrelated fixed message, because the templates disagree
within their common length.  These lemmas let each such fact be
discharged by `decide` on the two concrete templates. -/

theorem isPrefixOf_append_self : ∀ (l r : List Char), l.isPrefixOf (l ++ r) = true
  | [], _ => by simp
  | _ :: as, r => by simp [List.isPrefixOf, isPrefixOf_append_self as r]

/-- If `p` is not a prefix of `t`, then no extension of `p` equals `t`. -/
theorem beq_append_false (p s t : String) (h : p.data.isPrefixOf t.data = false) :
    ((p ++ s) == t) = false := by
  rw [beq_eq_false_iff_ne]
  intro he
  rw [← he] at h
  have hd : (p ++ s).data = p.data ++ s.data := rfl
  rw [hd, isPrefixOf_append_self] at h
  simp at h

/-- If `q` and `p` disagree within their common length, no extension of
`p` starts with `q`. -/
theorem msgStartsWith_append_false (q p s : String)
    (h1 : q.data.isPrefixOf p.data = false) (h2 : p.data.isPrefixOf q.data = false) :
    msgStartsWith q (p ++ s) = false := by
  unfold msgStartsWith
  have hd : (p ++ s).data = p.data ++ s.data := rfl
  rw [hd]
  by_contra hh
  rw [Bool.not_eq_false, List.isPrefixOf_iff_prefix] at hh
  have hp : p.data <+: p.data ++ s.data := List.prefix_append _ _
  rcases List.prefix_or_prefix_of_prefix hh hp with h | h
  · rw [← List.isPrefixOf_iff_prefix] at h; rw [h] at h1; simp at h1
  · rw [← List.isPrefixOf_iff_prefix] at h; rw [h] at h2; simp at h2



theorem isCleanupMsg_append (p : String) (h : cleanupSafe p = true) (s : String) :
    isCleanupMsg (p ++ s) = false := by
  unfold cleanupSafe at h
  simp only [Bool.and_eq_true, Bool.not_eq_true'] at h
  obtain ⟨⟨h1, h2⟩, h3⟩ := h
  simp [isCleanupMsg, beq_append_false p s _ h1, beq_append_false p s _ h2,
    beq_append_false p s _ h3]



theorem beq_startTls_append (p : String) (h : startTlsSafe p = true) (s : String) :
    ((p ++ s) == startTlsMsg) = false := by
  unfold startTlsSafe at h
  simp only [Bool.not_eq_true'] at h
  exact beq_append_false p s _ h



theorem isStepMsg_append (p : String) (h : stepSafe p = true) (s : String) :
    isStepMsg (p ++ s) = false := by
  unfold stepSafe at h
  simp only [Bool.and_eq_true, Bool.not_eq_true'] at h
  obtain ⟨⟨⟨⟨⟨⟨⟨⟨⟨⟨a1, a2⟩, ⟨b1, b2⟩⟩, ⟨c1, c2⟩⟩, ⟨d1, d2⟩⟩, ⟨e1, e2⟩⟩, ⟨f1, f2⟩⟩,
    ⟨g1, g2⟩⟩, ⟨i1, i2⟩⟩, j1⟩, k1⟩ := h
  simp [isStepMsg, isDnsMsg, isTcpMsg, isBindMsg,
    msgStartsWith_append_false _ p s a1 a2,
    msgStartsWith_append_false _ p s b1 b2,
    msgStartsWith_append_false _ p s c1 c2,
    msgStartsWith_append_false _ p s d1 d2,
    msgStartsWith_append_false _ p s e1 e2,
    msgStartsWith_append_false _ p s f1 f2,
    msgStartsWith_append_false _ p s g1 g2,
    msgStartsWith_append_false _ p s i1 i2,
    beq_append_false p s _ j1,
    beq_append_false p s _ k1]

/-! ## The cleanup entry: segment lemmas -/


theorem cleanup_concretes :
    isCleanupMsg "LDAP Test Started" = false ∧
    isCleanupMsg "No CA certificate configured - using system certificates" = false ∧
    isCleanupMsg "CA certificate file format: PEM (valid)" = false ∧
    isCleanupMsg "WARNING: CA certificate may not be in PEM format" = false ∧
    isCleanupMsg "Set OPT_X_TLS_REQUIRE_CERT: OPT_X_TLS_ALLOW (request cert, continue if invalid)" = false ∧
    isCleanupMsg "LDAP connection initialized" = false ∧
    isCleanupMsg "Set protocol version: LDAPv3" = false ∧
    isCleanupMsg "Set network timeout: 10 seconds" = false ∧
    isCleanupMsg "Connection-level OPT_X_TLS_REQUIRE_CERT: ALLOW" = false ∧
    isCleanupMsg "Connection-level OPT_X_TLS_CACERTFILE set" = false ∧
    isCleanupMsg "TLS context reloaded with new options" = false ∧
    isCleanupMsg "Starting TLS upgrade (STARTTLS)..." = false ∧
    isCleanupMsg "STARTTLS completed successfully" = false ∧
    isCleanupMsg "SUCCESS: User authenticated successfully!" = false ∧
    isCleanupMsg "ERROR: Invalid credentials - authentication failed" = false ∧
    isCleanupMsg "ERROR: LDAP server is down or unreachable" = false ∧
    isCleanupMsg "HINT: This may be a TLS/SSL certificate issue" = false ∧
    isCleanupMsg "ERROR: Could not connect to LDAP server" = false ∧
    isCleanupMsg "ERROR: LDAP operation timed out" = false ∧
    isCleanupMsg "ERROR: Connection timed out" = false ∧
    isCleanupMsg "ERROR: LDAP host missing in .env" = false ∧
    isCleanupMsg "ERROR: Username or password missing" = false := by decide

theorem filterCleanup_portParse (prt : String) :
    cleanupEntries (portParseLogs prt) = [] := by
  unfold portParseLogs
  split
  · rfl
  · split
    · rfl
    · simp [cleanupEntries, isCleanupMsg_append "ERROR: Invalid LDAP port: " (by decide)]

theorem filterCleanup_preLogs (h prt d c u : String) :
    cleanupEntries (preLogs h prt d c u) = [] := by
  unfold preLogs
  by_cases hc : c = "" <;>
    simp [hc, cleanupEntries, List.filter_append, -List.filter_eq_nil_iff,
      filterCleanup_portParse prt, cleanup_concretes,
      isCleanupMsg_append "AD Config loaded - Host: " (by decide),
      isCleanupMsg_append "AD Config - Domain: " (by decide),
      isCleanupMsg_append "AD Config - Port: " (by decide),
      isCleanupMsg_append "CA cert file configured: " (by decide),
      isCleanupMsg_append "Attempting to authenticate user: " (by decide)] <;>
    exact filterCleanup_portParse prt

theorem filterCleanup_caPhase (c : String) (r : CAReadResult) :
    cleanupEntries (caPhase c r).1 = [] := by
  unfold caPhase
  by_cases hc : c = ""
  · simp [hc, cleanupEntries, cleanup_concretes]
  · cases r with
    | ok content =>
        by_cases hp : pyIn "BEGIN CERTIFICATE" content <;>
          simp [hc, hp, cleanupEntries, cleanup_concretes,
            isCleanupMsg_append "Loading CA certificate from: " (by decide),
            isCleanupMsg_append "Set OPT_X_TLS_CACERTFILE: " (by decide)]
    | notFound =>
        simp [hc, cleanupEntries, cleanup_concretes,
          isCleanupMsg_append "Loading CA certificate from: " (by decide),
          isCleanupMsg_append "ERROR: CA certificate file not found: " (by decide),
          isCleanupMsg_append "Set OPT_X_TLS_CACERTFILE: " (by decide)]
    | permissionDenied =>
        simp [hc, cleanupEntries, cleanup_concretes,
          isCleanupMsg_append "Loading CA certificate from: " (by decide),
          isCleanupMsg_append "ERROR: Cannot read CA certificate file (permission denied): " (by decide),
          isCleanupMsg_append "Set OPT_X_TLS_CACERTFILE: " (by decide)]

theorem filterCleanup_dnsLogs (h : String) (r : DNSResult) :
    cleanupEntries (dnsLogs h r) = [] := by
  cases r <;>
    simp [dnsLogs, cleanupEntries,
      isCleanupMsg_append "Resolving hostname: " (by decide),
      isCleanupMsg_append "DNS resolved to: " (by decide),
      isCleanupMsg_append "ERROR: DNS resolution failed - " (by decide)]

theorem filterCleanup_tcpLogs (h : String) (port : Int) (r : TCPResult) :
    cleanupEntries (tcpLogs h port r) = [] := by
  cases r <;>
    simp [tcpLogs, hostPort, cleanupEntries,
      isCleanupMsg_append "Testing TCP connectivity to " (by decide),
      isCleanupMsg_append "TCP connection successful to " (by decide),
      isCleanupMsg_append "ERROR: TCP connection timed out to " (by decide),
      isCleanupMsg_append "ERROR: TCP connection failed - " (by decide)]

theorem filterCleanup_handleExc (e : BindExc) :
    cleanupEntries (handleExcLogs e) = [] := by
  cases e with
  | invalidCredentials => simp [handleExcLogs, cleanupEntries, cleanup_concretes]
  | serverDown msg =>
      by_cases hc : pyIn "certificate" (pyLower msg) <;>
        simp [handleExcLogs, hc, cleanupEntries, cleanup_concretes,
          isCleanupMsg_append "Details: " (by decide)]
  | connectError msg =>
      simp [handleExcLogs, cleanupEntries, cleanup_concretes,
        isCleanupMsg_append "Details: " (by decide)]
  | ldapTimeout => simp [handleExcLogs, cleanupEntries, cleanup_concretes]
  | otherLdapError name args =>
      cases args with
      | dict desc info =>
          by_cases hi : info == "" <;>
            simp [handleExcLogs, hi, cleanupEntries,
              isCleanupMsg_append "LDAP ERROR: " (by decide),
              isCleanupMsg_append "Description: " (by decide),
              isCleanupMsg_append "Info: " (by decide)]
      | other r =>
          simp [handleExcLogs, cleanupEntries,
            isCleanupMsg_append "LDAP ERROR: " (by decide),
            isCleanupMsg_append "Error details: " (by decide)]
  | socketTimeout => simp [handleExcLogs, cleanupEntries, cleanup_concretes]
  | osError msg errno =>
      simp [handleExcLogs, cleanupEntries,
        isCleanupMsg_append "OS ERROR: " (by decide),
        isCleanupMsg_append "Error number: " (by decide)]

theorem filterCleanup_bindLogs (lu : String) (b : Option BindExc) :
    cleanupEntries (bindLogs lu b).1 = [] := by
  cases b with
  | none =>
      simp [bindLogs, cleanupEntries, cleanup_concretes,
        isCleanupMsg_append "Attempting LDAP bind for user: " (by decide)]
  | some e =>
      (simp [bindLogs, cleanupEntries, List.filter_append, -List.filter_eq_nil_iff,
        isCleanupMsg_append "Attempting LDAP bind for user: " (by decide)];
       exact filterCleanup_handleExc e)

theorem isCleanupMsg_cleanupLog (c u : Bool) :
    isCleanupMsg (cleanupLog c u).message = true := by
  cases c <;> cases u <;> decide

theorem filterCleanup_sessionPhase (useSsl : Bool) (c h : String) (port : Int)
    (lu : String) (w : World) :
    cleanupEntries (sessionPhase useSsl c h port lu w).logs =
      [cleanupLog (w.initExc == none) w.unbindOk] := by
  unfold sessionPhase connSetupLogs
  have hinit := isCleanupMsg_append "Initializing LDAP connection: " (by decide)
  cases w.initExc with
  | some e =>
      (simp [cleanupEntries, List.filter_append, -List.filter_eq_nil_iff, hinit,
        isCleanupMsg_cleanupLog, cleanup_concretes];
       exact filterCleanup_handleExc e)
  | none =>
      cases useSsl with
      | true =>
          by_cases hc : c = "" <;>
            simp [hc, cleanupEntries, List.filter_append, -List.filter_eq_nil_iff,
              cleanup_concretes, hinit, isCleanupMsg_cleanupLog] <;>
            exact filterCleanup_bindLogs lu w.bindExc
      | false =>
          cases w.startTlsExc with
          | some e =>
              by_cases hc : c = "" <;>
                simp [hc, cleanupEntries, List.filter_append, -List.filter_eq_nil_iff,
                  cleanup_concretes, hinit, isCleanupMsg_cleanupLog] <;>
                exact filterCleanup_handleExc e
          | none =>
              by_cases hc : c = "" <;>
                simp [hc, cleanupEntries, List.filter_append, -List.filter_eq_nil_iff,
                  cleanup_concretes, hinit, isCleanupMsg_cleanupLog] <;>
                exact filterCleanup_bindLogs lu w.bindExc

theorem cleanupEntries_append (a b : List DebugEntry) :
    cleanupEntries (a ++ b) = cleanupEntries a ++ cleanupEntries b := by
  simp [cleanupEntries]

theorem cleanupEntries_cons (e : DebugEntry) (l : List DebugEntry) :
    cleanupEntries (e :: l) =
      if isCleanupMsg e.message then e :: cleanupEntries l else cleanupEntries l := by
  simp [cleanupEntries, List.filter_cons]

theorem cleanupEntries_nil : cleanupEntries [] = [] := rfl

theorem cleanupCount_valid (cfg : Config) (u p : String) (w : World)
    (h : validInput cfg u p) : cleanupCount (ldapTest cfg u p w) = 1 := by
  obtain ⟨h1, h2, h3⟩ := h
  unfold ldapTest cleanupCount
  rw [if_neg h1, if_neg (not_or.mpr ⟨h2, h3⟩)]
  simp [cleanupEntries_append, cleanupEntries_cons, cleanupEntries_nil,
    cleanup_concretes,
    isCleanupMsg_append "Attempting authentication with: " (by decide),
    isCleanupMsg_append "SSL/TLS mode: " (by decide),
    filterCleanup_preLogs, filterCleanup_caPhase, filterCleanup_dnsLogs,
    filterCleanup_tcpLogs, filterCleanup_sessionPhase]

end HealthChecks

namespace HealthChecks

theorem excOutcome_ne_configInvalid (e : BindExc) : excOutcome e ≠ .configInvalid := by
  cases e <;> simp [excOutcome]

theorem sessionPhase_outcome_ne (useSsl : Bool) (c h : String) (port : Int)
    (lu : String) (w : World) :
    (sessionPhase useSsl c h port lu w).outcome ≠ .configInvalid := by
  unfold sessionPhase
  cases w.initExc with
  | some e => simpa using excOutcome_ne_configInvalid e
  | none =>
      cases useSsl with
      | true =>
          cases hb : w.bindExc with
          | none => simp [bindLogs]
          | some e => simp [bindLogs, hb, excOutcome_ne_configInvalid e]
      | false =>
          cases w.startTlsExc with
          | some e => simpa using excOutcome_ne_configInvalid e
          | none =>
              cases hb : w.bindExc with
              | none => simp [bindLogs]
              | some e => simp [bindLogs, hb, excOutcome_ne_configInvalid e]

theorem outcome_configInvalid_iff (cfg : Config) (u p : String) (w : World) :
    (ldapTest cfg u p w).outcome = .configInvalid ↔
      (pyStrip cfg.host = "" ∨ pyStrip u = "" ∨ p = "") := by
  unfold ldapTest
  by_cases h1 : pyStrip cfg.host = ""
  · simp [h1]
  · by_cases h2 : pyStrip u = "" ∨ p = ""
    · rw [if_neg h1, if_pos h2]
      simp [h1, h2]
    · rw [if_neg h1, if_neg h2]
      simp only [h1, false_or]
      simp [sessionPhase_outcome_ne, h2]

/-- C1, corrected part: a run that passes configuration validation (its
outcome is not `ConfigInvalid`) logs exactly one cleanup entry. -/
theorem c1_cleanup_exactly_once (cfg : Config) (u p : String) (w : World)
    (h : (ldapTest cfg u p w).outcome ≠ .configInvalid) :
    cleanupCount (ldapTest cfg u p w) = 1 := by
  apply cleanupCount_valid
  have hv := (not_iff_not.mpr (outcome_configInvalid_iff cfg u p w)).mp h
  push_neg at hv
  exact ⟨hv.1, hv.2.1, hv.2.2⟩

/-- C1 counterexample: with an empty host the run returns `ConfigInvalid`
and its log has no cleanup entry at all. -/
theorem c1_counterexample :
    (ldapTest ⟨"", "", "", ""⟩ "user" "pw"
        ⟨.ok "", .ok [], .ok, none, none, none, true⟩).outcome = .configInvalid ∧
    cleanupCount (ldapTest ⟨"", "", "", ""⟩ "user" "pw"
        ⟨.ok "", .ok [], .ok, none, none, none, true⟩) = 0 := by
  decide

theorem c1_witness :
    (ldapTest ⟨"ldap.example.com", "389", "", ""⟩ "user" "pw"
        ⟨.ok "", .ok [], .ok, none, none, none, true⟩).outcome ≠ .configInvalid ∧
    cleanupCount (ldapTest ⟨"ldap.example.com", "389", "", ""⟩ "user" "pw"
        ⟨.ok "", .ok [], .ok, none, none, none, true⟩) = 1 :=
  ⟨by decide, c1_cleanup_exactly_once _ _ _ _ (by decide)⟩

theorem portParseLogs_nil (prt : String)
    (hp : prt = "" ∨ (pythonInt prt).isSome) : portParseLogs prt = [] := by
  unfold portParseLogs
  split
  · rfl
  · rcases hp with h | h
    · simp_all
    · obtain ⟨n, hn⟩ := Option.isSome_iff_exists.mp h
      simp [hn]

theorem step_concretes :
    isStepMsg "LDAP Test Started" = false ∧
    isStepMsg "AD Config loaded - Host: N/A" = false ∧
    isStepMsg "ERROR: LDAP host missing in .env" = false := by decide

/-- C2 (amended): with an empty host and a well-formed (or absent) port
string, the run returns `ConfigInvalid`, its only error entry is the
missing-host error, and no DNS, TCP or bind entry is logged. -/
theorem c2_empty_host (cfg : Config) (u p : String) (w : World)
    (hh : pyStrip cfg.host = "")
    (hp : pyStrip cfg.portRaw = "" ∨ (pythonInt (pyStrip cfg.portRaw)).isSome) :
    (ldapTest cfg u p w).outcome = .configInvalid ∧
    errorEntries (ldapTest cfg u p w).logs =
      [⟨"ERROR: LDAP host missing in .env", "error"⟩] ∧
    ∀ en ∈ (ldapTest cfg u p w).logs, isStepMsg en.message = false := by
  have hport := portParseLogs_nil _ hp
  refine ⟨(outcome_configInvalid_iff cfg u p w).mpr (Or.inl hh), ?_, ?_⟩
  · unfold ldapTest
    rw [if_pos hh]
    by_cases hca : pyStrip cfg.caCertFile = "" <;>
      simp [preLogs, hh, hca, hport, errorEntries, List.filter_append, List.filter]
  · unfold ldapTest
    rw [if_pos hh]
    by_cases hca : pyStrip cfg.caCertFile = "" <;>
      simp [preLogs, hh, hca, hport, step_concretes,
        isStepMsg_append "AD Config loaded - Host: " (by decide),
        isStepMsg_append "AD Config - Domain: " (by decide),
        isStepMsg_append "AD Config - Port: " (by decide),
        isStepMsg_append "CA cert file configured: " (by decide),
        isStepMsg_append "Attempting to authenticate user: " (by decide)]

theorem c2_witness :
    (ldapTest ⟨"", "389", "/ca.pem", "d.com"⟩ "alice" "pw"
        ⟨.ok "", .ok [], .ok, none, none, none, true⟩).outcome = .configInvalid ∧
    errorEntries (ldapTest ⟨"", "389", "/ca.pem", "d.com"⟩ "alice" "pw"
        ⟨.ok "", .ok [], .ok, none, none, none, true⟩).logs =
      [⟨"ERROR: LDAP host missing in .env", "error"⟩] :=
  have h := c2_empty_host ⟨"", "389", "/ca.pem", "d.com"⟩ "alice" "pw"
    ⟨.ok "", .ok [], .ok, none, none, none, true⟩ (by decide) (by decide)
  ⟨h.1, h.2.1⟩

/-- C2 counterexample: with an empty host and an unparsable port string
the log has two error entries, not exactly one. -/
theorem c2_counterexample :
    (ldapTest ⟨"", "not-a-number", "", ""⟩ "alice" "pw"
        ⟨.ok "", .ok [], .ok, none, none, none, true⟩).outcome = .configInvalid ∧
    errorEntries (ldapTest ⟨"", "not-a-number", "", ""⟩ "alice" "pw"
        ⟨.ok "", .ok [], .ok, none, none, none, true⟩).logs =
      [⟨"ERROR: Invalid LDAP port: not-a-number", "error"⟩,
       ⟨"ERROR: LDAP host missing in .env", "error"⟩] := by
  decide

/-- C3: the bind identity the run uses and logs is the username verbatim
when it contains an at-sign or no domain is configured, and otherwise the
concatenation username, at-sign, domain. -/
theorem c3_identity_resolution (cfg : Config) (u p : String) (w : World)
    (h : validInput cfg u p) :
    (⟨"Attempting authentication with: " ++
        (if pyIn "@" (pyStrip u) || pyStrip cfg.domain == "" then pyStrip u
         else pyStrip u ++ "@" ++ pyStrip cfg.domain), "info"⟩ : DebugEntry)
      ∈ (ldapTest cfg u p w).logs ∧
    loginUsername (pyStrip u) (pyStrip cfg.domain) =
      (if pyIn "@" (pyStrip u) || pyStrip cfg.domain == "" then pyStrip u
       else pyStrip u ++ "@" ++ pyStrip cfg.domain) := by
  obtain ⟨h1, h2, h3⟩ := h
  refine ⟨?_, rfl⟩
  unfold ldapTest
  rw [if_neg h1, if_neg (not_or.mpr ⟨h2, h3⟩)]
  simp [loginUsername]

theorem c3_witness :
    (⟨"Attempting authentication with: " ++
        (if pyIn "@" (pyStrip "alice") || pyStrip (Config.mk "h" "" "" "example.com").domain == ""
         then pyStrip "alice"
         else pyStrip "alice" ++ "@" ++ pyStrip (Config.mk "h" "" "" "example.com").domain),
      "info"⟩ : DebugEntry)
      ∈ (ldapTest ⟨"h", "", "", "example.com"⟩ "alice" "pw"
          ⟨.ok "", .ok [], .ok, none, none, none, true⟩).logs ∧
    (if pyIn "@" (pyStrip "alice") || pyStrip (Config.mk "h" "" "" "example.com").domain == ""
     then pyStrip "alice"
     else pyStrip "alice" ++ "@" ++ pyStrip (Config.mk "h" "" "" "example.com").domain) =
      "alice@example.com" :=
  ⟨(c3_identity_resolution ⟨"h", "", "", "example.com"⟩ "alice" "pw"
      ⟨.ok "", .ok [], .ok, none, none, none, true⟩ (by decide)).1,
   by decide⟩

theorem containsMsg_append (t : String) (a b : List DebugEntry) :
    containsMsg t (a ++ b) = (containsMsg t a || containsMsg t b) := by
  simp [containsMsg]

theorem containsMsg_cons (t : String) (e : DebugEntry) (l : List DebugEntry) :
    containsMsg t (e :: l) = ((e.message == t) || containsMsg t l) := by
  simp [containsMsg]

theorem containsMsg_nil (t : String) : containsMsg t [] = false := rfl

theorem st_concretes :
    ("LDAP Test Started" == startTlsMsg) = false ∧
    ("No CA certificate configured - using system certificates" == startTlsMsg) = false ∧
    ("CA certificate file format: PEM (valid)" == startTlsMsg) = false ∧
    ("WARNING: CA certificate may not be in PEM format" == startTlsMsg) = false ∧
    ("Set OPT_X_TLS_REQUIRE_CERT: OPT_X_TLS_ALLOW (request cert, continue if invalid)" == startTlsMsg) = false ∧
    ("LDAP connection initialized" == startTlsMsg) = false ∧
    ("Set protocol version: LDAPv3" == startTlsMsg) = false ∧
    ("Set network timeout: 10 seconds" == startTlsMsg) = false ∧
    ("Connection-level OPT_X_TLS_REQUIRE_CERT: ALLOW" == startTlsMsg) = false ∧
    ("Connection-level OPT_X_TLS_CACERTFILE set" == startTlsMsg) = false ∧
    ("TLS context reloaded with new options" == startTlsMsg) = false ∧
    ("SUCCESS: User authenticated successfully!" == startTlsMsg) = false ∧
    ("ERROR: Invalid credentials - authentication failed" == startTlsMsg) = false ∧
    ("ERROR: LDAP server is down or unreachable" == startTlsMsg) = false ∧
    ("HINT: This may be a TLS/SSL certificate issue" == startTlsMsg) = false ∧
    ("ERROR: Could not connect to LDAP server" == startTlsMsg) = false ∧
    ("ERROR: LDAP operation timed out" == startTlsMsg) = false ∧
    ("ERROR: Connection timed out" == startTlsMsg) = false := by decide

theorem st_cleanupLog (c u : Bool) : ((cleanupLog c u).message == startTlsMsg) = false := by
  cases c <;> cases u <;> decide

theorem noStartTls_portParse (prt : String) :
    containsMsg startTlsMsg (portParseLogs prt) = false := by
  unfold portParseLogs
  split
  · rfl
  · split
    · rfl
    · simp [containsMsg_cons, containsMsg_nil,
        beq_startTls_append "ERROR: Invalid LDAP port: " (by decide)]

theorem noStartTls_preLogs (h prt d c u : String) :
    containsMsg startTlsMsg (preLogs h prt d c u) = false := by
  unfold preLogs
  by_cases hc : c = "" <;>
    simp [hc, containsMsg_append, containsMsg_cons, containsMsg_nil,
      noStartTls_portParse prt, st_concretes,
      beq_startTls_append "AD Config loaded - Host: " (by decide),
      beq_startTls_append "AD Config - Domain: " (by decide),
      beq_startTls_append "AD Config - Port: " (by decide),
      beq_startTls_append "CA cert file configured: " (by decide),
      beq_startTls_append "Attempting to authenticate user: " (by decide)]

theorem noStartTls_caPhase (c : String) (r : CAReadResult) :
    containsMsg startTlsMsg (caPhase c r).1 = false := by
  unfold caPhase
  by_cases hc : c = ""
  · simp [hc, containsMsg_cons, containsMsg_nil, st_concretes]
  · cases r with
    | ok content =>
        by_cases hp : pyIn "BEGIN CERTIFICATE" content <;>
          simp [hc, hp, containsMsg_append, containsMsg_cons, containsMsg_nil, st_concretes,
            beq_startTls_append "Loading CA certificate from: " (by decide),
            beq_startTls_append "Set OPT_X_TLS_CACERTFILE: " (by decide)]
    | notFound =>
        simp [hc, containsMsg_append, containsMsg_cons, containsMsg_nil, st_concretes,
          beq_startTls_append "Loading CA certificate from: " (by decide),
          beq_startTls_append "ERROR: CA certificate file not found: " (by decide),
          beq_startTls_append "Set OPT_X_TLS_CACERTFILE: " (by decide)]
    | permissionDenied =>
        simp [hc, containsMsg_append, containsMsg_cons, containsMsg_nil, st_concretes,
          beq_startTls_append "Loading CA certificate from: " (by decide),
          beq_startTls_append "ERROR: Cannot read CA certificate file (permission denied): " (by decide),
          beq_startTls_append "Set OPT_X_TLS_CACERTFILE: " (by decide)]

theorem noStartTls_dnsLogs (h : String) (r : DNSResult) :
    containsMsg startTlsMsg (dnsLogs h r) = false := by
  cases r <;>
    simp [dnsLogs, containsMsg_append, containsMsg_cons, containsMsg_nil,
      beq_startTls_append "Resolving hostname: " (by decide),
      beq_startTls_append "DNS resolved to: " (by decide),
      beq_startTls_append "ERROR: DNS resolution failed - " (by decide)]

theorem noStartTls_tcpLogs (h : String) (port : Int) (r : TCPResult) :
    containsMsg startTlsMsg (tcpLogs h port r) = false := by
  cases r <;>
    simp [tcpLogs, hostPort, containsMsg_append, containsMsg_cons, containsMsg_nil,
      beq_startTls_append "Testing TCP connectivity to " (by decide),
      beq_startTls_append "TCP connection successful to " (by decide),
      beq_startTls_append "ERROR: TCP connection timed out to " (by decide),
      beq_startTls_append "ERROR: TCP connection failed - " (by decide)]

theorem noStartTls_handleExc (e : BindExc) :
    containsMsg startTlsMsg (handleExcLogs e) = false := by
  cases e with
  | invalidCredentials => simp [handleExcLogs, containsMsg_cons, containsMsg_nil, st_concretes]
  | serverDown msg =>
      by_cases hc : pyIn "certificate" (pyLower msg) <;>
        simp [handleExcLogs, hc, containsMsg_append, containsMsg_cons, containsMsg_nil,
          st_concretes, beq_startTls_append "Details: " (by decide)]
  | connectError msg =>
      simp [handleExcLogs, containsMsg_append, containsMsg_cons, containsMsg_nil,
        st_concretes, beq_startTls_append "Details: " (by decide)]
  | ldapTimeout => simp [handleExcLogs, containsMsg_cons, containsMsg_nil, st_concretes]
  | otherLdapError name args =>
      cases args with
      | dict desc info =>
          by_cases hi : info == "" <;>
            simp [handleExcLogs, hi, containsMsg_append, containsMsg_cons, containsMsg_nil,
              beq_startTls_append "LDAP ERROR: " (by decide),
              beq_startTls_append "Description: " (by decide),
              beq_startTls_append "Info: " (by decide)]
      | other r =>
          simp [handleExcLogs, containsMsg_append, containsMsg_cons, containsMsg_nil,
            beq_startTls_append "LDAP ERROR: " (by decide),
            beq_startTls_append "Error details: " (by decide)]
  | socketTimeout => simp [handleExcLogs, containsMsg_cons, containsMsg_nil, st_concretes]
  | osError msg errno =>
      simp [handleExcLogs, containsMsg_append, containsMsg_cons, containsMsg_nil,
        beq_startTls_append "OS ERROR: " (by decide),
        beq_startTls_append "Error number: " (by decide)]

theorem noStartTls_bindLogs (lu : String) (b : Option BindExc) :
    containsMsg startTlsMsg (bindLogs lu b).1 = false := by
  cases b with
  | none =>
      simp [bindLogs, containsMsg_append, containsMsg_cons, containsMsg_nil, st_concretes,
        beq_startTls_append "Attempting LDAP bind for user: " (by decide)]
  | some e =>
      simp [bindLogs, containsMsg_append, containsMsg_cons, containsMsg_nil,
        noStartTls_handleExc e,
        beq_startTls_append "Attempting LDAP bind for user: " (by decide)]

theorem noStartTls_sessionPhase_ssl (c h : String) (port : Int) (lu : String) (w : World) :
    containsMsg startTlsMsg (sessionPhase true c h port lu w).logs = false := by
  unfold sessionPhase connSetupLogs
  have hinit := beq_startTls_append "Initializing LDAP connection: " (by decide)
  cases w.initExc with
  | some e =>
      simp [containsMsg_append, containsMsg_cons, containsMsg_nil, hinit,
        noStartTls_handleExc e, st_cleanupLog]
  | none =>
      by_cases hc : c = "" <;>
        simp [hc, containsMsg_append, containsMsg_cons, containsMsg_nil, st_concretes,
          hinit, noStartTls_bindLogs lu w.bindExc, st_cleanupLog]

theorem startTls_sessionPhase_plain (c h : String) (port : Int) (lu : String)
    (w : World) (hi : w.initExc = none) :
    containsMsg startTlsMsg (sessionPhase false c h port lu w).logs = true := by
  unfold sessionPhase connSetupLogs
  rw [hi]
  cases w.startTlsExc with
  | some e =>
      by_cases hc : c = "" <;>
        simp [hc, containsMsg_append, containsMsg_cons, startTlsMsg]
  | none =>
      by_cases hc : c = "" <;>
        simp [hc, containsMsg_append, containsMsg_cons, startTlsMsg]

/-- C4 (amended): given the session is initialized, STARTTLS is attempted
exactly when plaintext mode was selected (port differs from 636),
regardless of CA-cert configuration; the selected mode is logged. -/
theorem c4_tls_mode (cfg : Config) (u p : String) (w : World)
    (hv : validInput cfg u p) (hi : w.initExc = none) :
    containsMsg startTlsMsg (ldapTest cfg u p w).logs =
      (parsedPort (pyStrip cfg.portRaw) != 636) ∧
    (⟨"SSL/TLS mode: " ++
        (if parsedPort (pyStrip cfg.portRaw) == 636 then "LDAPS (implicit SSL)"
         else "LDAP (plain or STARTTLS)"), "info"⟩ : DebugEntry)
      ∈ (ldapTest cfg u p w).logs := by
  obtain ⟨h1, h2, h3⟩ := hv
  unfold ldapTest
  rw [if_neg h1, if_neg (not_or.mpr ⟨h2, h3⟩)]
  constructor
  · by_cases hp : parsedPort (pyStrip cfg.portRaw) = 636
    · have hb : (parsedPort (pyStrip cfg.portRaw) == 636) = true := by simp [hp]
      simp [hb, bne, containsMsg_append, containsMsg_cons, containsMsg_nil,
        noStartTls_preLogs, noStartTls_caPhase, noStartTls_dnsLogs,
        noStartTls_tcpLogs, noStartTls_sessionPhase_ssl, st_concretes,
        beq_startTls_append "Attempting authentication with: " (by decide),
        (by decide : ("SSL/TLS mode: LDAPS (implicit SSL)" == startTlsMsg) = false)]
    · have hb : (parsedPort (pyStrip cfg.portRaw) == 636) = false := by
        simp [hp]
      simp [hb, bne, containsMsg_append, containsMsg_cons, containsMsg_nil,
        noStartTls_preLogs, noStartTls_caPhase, noStartTls_dnsLogs, noStartTls_tcpLogs,
        beq_startTls_append "Attempting authentication with: " (by decide),
        (by decide : ("SSL/TLS mode: LDAP (plain or STARTTLS)" == startTlsMsg) = false),
        startTls_sessionPhase_plain (pyStrip cfg.caCertFile) (pyStrip cfg.host)
          (parsedPort (pyStrip cfg.portRaw))
          (loginUsername (pyStrip u) (pyStrip cfg.domain)) w hi]
  · simp

/-- C4 counterexample: a plaintext-mode run with no CA cert configured
still performs the STARTTLS upgrade. -/
theorem c4_counterexample :
    pyStrip (Config.mk "h" "389" "" "").caCertFile = "" ∧
    containsMsg startTlsMsg
      (ldapTest ⟨"h", "389", "", ""⟩ "alice" "pw"
        ⟨.ok "", .ok [], .ok, none, none, none, true⟩).logs = true := by
  decide

theorem c4_witness :
    containsMsg startTlsMsg
      (ldapTest ⟨"h", "636", "", ""⟩ "alice" "pw"
        ⟨.ok "", .ok [], .ok, none, none, none, true⟩).logs =
      (parsedPort (pyStrip (Config.mk "h" "636" "" "").portRaw) != 636) ∧
    (⟨"SSL/TLS mode: " ++
        (if parsedPort (pyStrip (Config.mk "h" "636" "" "").portRaw) == 636
         then "LDAPS (implicit SSL)" else "LDAP (plain or STARTTLS)"), "info"⟩ : DebugEntry)
      ∈ (ldapTest ⟨"h", "636", "", ""⟩ "alice" "pw"
          ⟨.ok "", .ok [], .ok, none, none, none, true⟩).logs :=
  c4_tls_mode ⟨"h", "636", "", ""⟩ "alice" "pw"
    ⟨.ok "", .ok [], .ok, none, none, none, true⟩ (by decide) rfl

/-- C5: each CA-file failure is logged distinctly and does not abort the
run. -/
theorem c5_ca_cert_check (cfg : Config) (u p : String) (w : World)
    (hv : validInput cfg u p) (hca : pyStrip cfg.caCertFile ≠ "") :
    (w.caRead = .notFound →
      (⟨"ERROR: CA certificate file not found: " ++ pyStrip cfg.caCertFile,
          "error"⟩ : DebugEntry) ∈ (ldapTest cfg u p w).logs) ∧
    (w.caRead = .permissionDenied →
      (⟨"ERROR: Cannot read CA certificate file (permission denied): " ++ pyStrip cfg.caCertFile,
          "error"⟩ : DebugEntry) ∈ (ldapTest cfg u p w).logs) ∧
    (∀ content, w.caRead = .ok content → pyIn "BEGIN CERTIFICATE" content = false →
      (⟨"WARNING: CA certificate may not be in PEM format", "error"⟩ : DebugEntry)
        ∈ (ldapTest cfg u p w).logs) ∧
    msgStartsWith "OS ERROR: "
      ("ERROR: CA certificate file not found: " ++ pyStrip cfg.caCertFile) = false ∧
    msgStartsWith "OS ERROR: "
      ("ERROR: Cannot read CA certificate file (permission denied): " ++ pyStrip cfg.caCertFile) = false ∧
    msgStartsWith "ERROR: Cannot read CA certificate file (permission denied): "
      ("ERROR: CA certificate file not found: " ++ pyStrip cfg.caCertFile) = false ∧
    msgStartsWith "ERROR: CA certificate file not found: "
      ("ERROR: Cannot read CA certificate file (permission denied): " ++ pyStrip cfg.caCertFile) = false ∧
    (⟨"Resolving hostname: " ++ pyStrip cfg.host, "info"⟩ : DebugEntry)
      ∈ (ldapTest cfg u p w).logs ∧
    cleanupCount (ldapTest cfg u p w) = 1 := by
  obtain ⟨h1, h2, h3⟩ := hv
  refine ⟨?_, ?_, ?_,
    msgStartsWith_append_false _ _ _ (by decide) (by decide),
    msgStartsWith_append_false _ _ _ (by decide) (by decide),
    msgStartsWith_append_false _ _ _ (by decide) (by decide),
    msgStartsWith_append_false _ _ _ (by decide) (by decide),
    ?_, cleanupCount_valid cfg u p w ⟨h1, h2, h3⟩⟩
  · intro hr
    unfold ldapTest
    rw [if_neg h1, if_neg (not_or.mpr ⟨h2, h3⟩)]
    simp [caPhase, hca, hr]
  · intro hr
    unfold ldapTest
    rw [if_neg h1, if_neg (not_or.mpr ⟨h2, h3⟩)]
    simp [caPhase, hca, hr]
  · intro content hr hpem
    unfold ldapTest
    rw [if_neg h1, if_neg (not_or.mpr ⟨h2, h3⟩)]
    simp [caPhase, hca, hr, hpem]
  · unfold ldapTest
    rw [if_neg h1, if_neg (not_or.mpr ⟨h2, h3⟩)]
    simp [dnsLogs]

theorem c5_witness :
    (⟨"ERROR: CA certificate file not found: " ++ pyStrip (Config.mk "h" "" "/ca.pem" "").caCertFile,
        "error"⟩ : DebugEntry)
      ∈ (ldapTest ⟨"h", "", "/ca.pem", ""⟩ "alice" "pw"
          ⟨.notFound, .ok [], .ok, none, none, none, true⟩).logs ∧
    cleanupCount (ldapTest ⟨"h", "", "/ca.pem", ""⟩ "alice" "pw"
        ⟨.notFound, .ok [], .ok, none, none, none, true⟩) = 1 :=
  have h := c5_ca_cert_check ⟨"h", "", "/ca.pem", ""⟩ "alice" "pw"
    ⟨.notFound, .ok [], .ok, none, none, none, true⟩ (by decide) (by decide)
  ⟨h.1 rfl, h.2.2.2.2.2.2.2.2⟩

theorem sessionPhase_bind_reached (useSsl : Bool) (c h : String) (port : Int)
    (lu : String) (w : World) (hi : w.initExc = none)
    (hst : useSsl = true ∨ w.startTlsExc = none) :
    (sessionPhase useSsl c h port lu w).outcome = (bindLogs lu w.bindExc).2 ∧
    ∀ a ∈ (bindLogs lu w.bindExc).1, a ∈ (sessionPhase useSsl c h port lu w).logs := by
  unfold sessionPhase
  rw [hi]
  rcases hst with hs | hs
  · subst hs
    constructor
    · simp
    · intro a ha
      simp [ha]
  · cases useSsl with
    | true =>
        constructor
        · simp
        · intro a ha
          simp [ha]
    | false =>
        rw [hs]
        constructor
        · simp
        · intro a ha
          simp [ha]

theorem ldapTest_outcome_session (cfg : Config) (u p : String) (w : World)
    (h1 : pyStrip cfg.host ≠ "") (h2 : pyStrip u ≠ "") (h3 : p ≠ "") :
    (ldapTest cfg u p w).outcome =
      (sessionPhase (parsedPort (pyStrip cfg.portRaw) == 636) (pyStrip cfg.caCertFile)
        (pyStrip cfg.host) (parsedPort (pyStrip cfg.portRaw))
        (loginUsername (pyStrip u) (pyStrip cfg.domain)) w).outcome := by
  unfold ldapTest
  rw [if_neg h1, if_neg (not_or.mpr ⟨h2, h3⟩)]

theorem ldapTest_mem_session (cfg : Config) (u p : String) (w : World)
    (h1 : pyStrip cfg.host ≠ "") (h2 : pyStrip u ≠ "") (h3 : p ≠ "")
    (a : DebugEntry)
    (ha : a ∈ (sessionPhase (parsedPort (pyStrip cfg.portRaw) == 636) (pyStrip cfg.caCertFile)
        (pyStrip cfg.host) (parsedPort (pyStrip cfg.portRaw))
        (loginUsername (pyStrip u) (pyStrip cfg.domain)) w).logs) :
    a ∈ (ldapTest cfg u p w).logs := by
  unfold ldapTest
  rw [if_neg h1, if_neg (not_or.mpr ⟨h2, h3⟩)]
  simp [ha]

theorem startTls_cond (cfg : Config) (w : World)
    (hst : parsedPort (pyStrip cfg.portRaw) = 636 ∨ w.startTlsExc = none) :
    (parsedPort (pyStrip cfg.portRaw) == 636) = true ∨ w.startTlsExc = none := by
  rcases hst with h | h
  · exact Or.inl (by simp [h])
  · exact Or.inr h

/-- C6: an invalid-credentials bind failure yields
`AuthenticationFailed` and the dedicated invalid-credentials error entry
(that handler logs nothing else). -/
theorem c6_invalid_credentials (cfg : Config) (u p : String) (w : World)
    (hv : validInput cfg u p) (hi : w.initExc = none)
    (hst : parsedPort (pyStrip cfg.portRaw) = 636 ∨ w.startTlsExc = none)
    (hb : w.bindExc = some .invalidCredentials) :
    (ldapTest cfg u p w).outcome = .authenticationFailed ∧
    (⟨"ERROR: Invalid credentials - authentication failed", "error"⟩ : DebugEntry)
      ∈ (ldapTest cfg u p w).logs ∧
    handleExcLogs .invalidCredentials =
      [⟨"ERROR: Invalid credentials - authentication failed", "error"⟩] := by
  obtain ⟨h1, h2, h3⟩ := hv
  have hs := sessionPhase_bind_reached (parsedPort (pyStrip cfg.portRaw) == 636)
    (pyStrip cfg.caCertFile) (pyStrip cfg.host) (parsedPort (pyStrip cfg.portRaw))
    (loginUsername (pyStrip u) (pyStrip cfg.domain)) w hi (startTls_cond cfg w hst)
  refine ⟨?_, ?_, rfl⟩
  · rw [ldapTest_outcome_session cfg u p w h1 h2 h3, hs.1, hb]
    rfl
  · apply ldapTest_mem_session cfg u p w h1 h2 h3
    apply hs.2
    simp [bindLogs, hb, handleExcLogs]

theorem c6_witness :
    (ldapTest ⟨"h", "636", "", ""⟩ "alice" "pw"
        ⟨.ok "", .ok [], .ok, none, none, some .invalidCredentials, true⟩).outcome =
      .authenticationFailed ∧
    (⟨"ERROR: Invalid credentials - authentication failed", "error"⟩ : DebugEntry)
      ∈ (ldapTest ⟨"h", "636", "", ""⟩ "alice" "pw"
          ⟨.ok "", .ok [], .ok, none, none, some .invalidCredentials, true⟩).logs :=
  have h := c6_invalid_credentials ⟨"h", "636", "", ""⟩ "alice" "pw"
    ⟨.ok "", .ok [], .ok, none, none, some .invalidCredentials, true⟩
    (by decide) rfl (Or.inr rfl) rfl
  ⟨h.1, h.2.1⟩

/-- C7: a server-down bind failure yields `ConnectivityFailed`, its own
error entries distinct from the invalid-credentials one, and a TLS-trust
hint when the detail mentions certificates. -/
theorem c7_server_down (cfg : Config) (u p : String) (w : World)
    (hv : validInput cfg u p) (hi : w.initExc = none)
    (hst : parsedPort (pyStrip cfg.portRaw) = 636 ∨ w.startTlsExc = none)
    (msg : String) (hb : w.bindExc = some (.serverDown msg)) :
    (ldapTest cfg u p w).outcome = .connectivityFailed ∧
    (⟨"ERROR: LDAP server is down or unreachable", "error"⟩ : DebugEntry)
      ∈ (ldapTest cfg u p w).logs ∧
    (⟨"Details: " ++ msg, "error"⟩ : DebugEntry) ∈ (ldapTest cfg u p w).logs ∧
    (pyIn "certificate" (pyLower msg) = true →
      (⟨"HINT: This may be a TLS/SSL certificate issue", "error"⟩ : DebugEntry)
        ∈ (ldapTest cfg u p w).logs) ∧
    ("ERROR: LDAP server is down or unreachable" ≠
      "ERROR: Invalid credentials - authentication failed") := by
  obtain ⟨h1, h2, h3⟩ := hv
  have hs := sessionPhase_bind_reached (parsedPort (pyStrip cfg.portRaw) == 636)
    (pyStrip cfg.caCertFile) (pyStrip cfg.host) (parsedPort (pyStrip cfg.portRaw))
    (loginUsername (pyStrip u) (pyStrip cfg.domain)) w hi (startTls_cond cfg w hst)
  refine ⟨?_, ?_, ?_, ?_, by decide⟩
  · rw [ldapTest_outcome_session cfg u p w h1 h2 h3, hs.1, hb]
    rfl
  · apply ldapTest_mem_session cfg u p w h1 h2 h3
    apply hs.2
    simp [bindLogs, hb, handleExcLogs]
  · apply ldapTest_mem_session cfg u p w h1 h2 h3
    apply hs.2
    simp [bindLogs, hb, handleExcLogs]
  · intro hcert
    apply ldapTest_mem_session cfg u p w h1 h2 h3
    apply hs.2
    simp [bindLogs, hb, handleExcLogs, hcert]

theorem c7_witness :
    (ldapTest ⟨"h", "636", "", ""⟩ "alice" "pw"
        ⟨.ok "", .ok [], .ok, none, none,
          some (.serverDown "certificate verify failed"), true⟩).outcome =
      .connectivityFailed ∧
    (⟨"HINT: This may be a TLS/SSL certificate issue", "error"⟩ : DebugEntry)
      ∈ (ldapTest ⟨"h", "636", "", ""⟩ "alice" "pw"
          ⟨.ok "", .ok [], .ok, none, none,
            some (.serverDown "certificate verify failed"), true⟩).logs :=
  have h := c7_server_down ⟨"h", "636", "", ""⟩ "alice" "pw"
    ⟨.ok "", .ok [], .ok, none, none,
      some (.serverDown "certificate verify failed"), true⟩
    (by decide) rfl (Or.inr rfl) "certificate verify failed" rfl
  ⟨h.1, h.2.2.2.1 (by decide)⟩

theorem handleExc_levels (e : BindExc) : ∀ en ∈ handleExcLogs e, en.level = "error" := by
  cases e with
  | invalidCredentials => simp [handleExcLogs]
  | serverDown msg =>
      by_cases hc : pyIn "certificate" (pyLower msg) <;> simp [handleExcLogs, hc]
  | connectError msg => simp [handleExcLogs]
  | ldapTimeout => simp [handleExcLogs]
  | otherLdapError name args =>
      cases args with
      | dict desc info => by_cases hi : info == "" <;> simp [handleExcLogs, hi]
      | other r => simp [handleExcLogs]
  | socketTimeout => simp [handleExcLogs]
  | osError msg errno => simp [handleExcLogs]

theorem handleExc_infix_init (useSsl : Bool) (c h : String) (port : Int) (lu : String)
    (w : World) (e : BindExc) (hi : w.initExc = some e) :
    handleExcLogs e <:+: (sessionPhase useSsl c h port lu w).logs := by
  unfold sessionPhase
  rw [hi]
  exact List.infix_append _ _ _

theorem handleExc_infix_startTls (c h : String) (port : Int) (lu : String)
    (w : World) (e : BindExc) (hi : w.initExc = none) (hs : w.startTlsExc = some e) :
    handleExcLogs e <:+: (sessionPhase false c h port lu w).logs := by
  unfold sessionPhase
  rw [hi, hs]
  exact List.infix_append _ _ _

theorem handleExc_infix_bindStep (useSsl : Bool) (c h : String) (port : Int)
    (lu : String) (w : World) (e : BindExc) (hi : w.initExc = none)
    (hst : useSsl = true ∨ w.startTlsExc = none) (hb : w.bindExc = some e) :
    handleExcLogs e <:+: (sessionPhase useSsl c h port lu w).logs := by
  have hb1 : handleExcLogs e <:+: (bindLogs lu w.bindExc).1 := by
    rw [hb]
    simp only [bindLogs]
    exact List.IsSuffix.isInfix (List.suffix_append _ _)
  unfold sessionPhase
  rw [hi]
  rcases hst with hs | hs
  · subst hs
    exact hb1.trans (List.infix_append _ _ _)
  · cases useSsl with
    | true => exact hb1.trans (List.infix_append _ _ _)
    | false =>
        rw [hs]
        exact hb1.trans (List.infix_append _ _ _)

theorem ldapTest_infix_session (cfg : Config) (u p : String) (w : World)
    (h1 : pyStrip cfg.host ≠ "") (h2 : pyStrip u ≠ "") (h3 : p ≠ "")
    {m : List DebugEntry}
    (hm : m <:+: (sessionPhase (parsedPort (pyStrip cfg.portRaw) == 636)
        (pyStrip cfg.caCertFile) (pyStrip cfg.host) (parsedPort (pyStrip cfg.portRaw))
        (loginUsername (pyStrip u) (pyStrip cfg.domain)) w).logs) :
    m <:+: (ldapTest cfg u p w).logs := by
  unfold ldapTest
  rw [if_neg h1, if_neg (not_or.mpr ⟨h2, h3⟩)]
  exact hm.trans (List.IsSuffix.isInfix (List.suffix_append _ _))

/-- C8: DNS, TCP, TLS and bind failures are each caught locally and
logged as error entries; the run always reaches cleanup and the only
early halt is `ConfigInvalid` on missing host or credentials. -/
theorem c8_failures_contained (cfg : Config) (u p : String) (w : World) :
    ((ldapTest cfg u p w).outcome = .configInvalid ↔
      (pyStrip cfg.host = "" ∨ pyStrip u = "" ∨ p = "")) ∧
    (∀ e : BindExc, ∀ en ∈ handleExcLogs e, en.level = "error") ∧
    (validInput cfg u p →
      (∀ m, w.dns = .gaierror m →
        (⟨"ERROR: DNS resolution failed - " ++ m, "error"⟩ : DebugEntry)
          ∈ (ldapTest cfg u p w).logs) ∧
      (w.tcp = .timeout →
        (⟨"ERROR: TCP connection timed out to " ++
            hostPort (pyStrip cfg.host) (parsedPort (pyStrip cfg.portRaw)),
            "error"⟩ : DebugEntry) ∈ (ldapTest cfg u p w).logs) ∧
      (∀ m, w.tcp = .sockError m →
        (⟨"ERROR: TCP connection failed - " ++ m, "error"⟩ : DebugEntry)
          ∈ (ldapTest cfg u p w).logs) ∧
      (∀ e, w.initExc = some e → handleExcLogs e <:+: (ldapTest cfg u p w).logs) ∧
      (∀ e, w.initExc = none → parsedPort (pyStrip cfg.portRaw) ≠ 636 →
        w.startTlsExc = some e → handleExcLogs e <:+: (ldapTest cfg u p w).logs) ∧
      (∀ e, w.initExc = none →
        (parsedPort (pyStrip cfg.portRaw) = 636 ∨ w.startTlsExc = none) →
        w.bindExc = some e → handleExcLogs e <:+: (ldapTest cfg u p w).logs) ∧
      cleanupCount (ldapTest cfg u p w) = 1) := by
  refine ⟨outcome_configInvalid_iff cfg u p w, handleExc_levels, ?_⟩
  intro hv
  obtain ⟨h1, h2, h3⟩ := hv
  refine ⟨?_, ?_, ?_, ?_, ?_, ?_, cleanupCount_valid cfg u p w ⟨h1, h2, h3⟩⟩
  · intro m hd
    unfold ldapTest
    rw [if_neg h1, if_neg (not_or.mpr ⟨h2, h3⟩)]
    simp [dnsLogs, hd]
  · intro ht
    unfold ldapTest
    rw [if_neg h1, if_neg (not_or.mpr ⟨h2, h3⟩)]
    simp [tcpLogs, ht]
  · intro m ht
    unfold ldapTest
    rw [if_neg h1, if_neg (not_or.mpr ⟨h2, h3⟩)]
    simp [tcpLogs, ht]
  · intro e hi
    exact ldapTest_infix_session cfg u p w h1 h2 h3
      (handleExc_infix_init _ _ _ _ _ w e hi)
  · intro e hi hp hs
    have hb636 : (parsedPort (pyStrip cfg.portRaw) == 636) = false :=
      beq_eq_false_iff_ne.mpr hp
    apply ldapTest_infix_session cfg u p w h1 h2 h3
    rw [hb636]
    exact handleExc_infix_startTls _ _ _ _ w e hi hs
  · intro e hi hst hb
    apply ldapTest_infix_session cfg u p w h1 h2 h3
    exact handleExc_infix_bindStep _ _ _ _ _ w e hi (startTls_cond cfg w hst) hb

theorem c8_witness :
    (⟨"ERROR: DNS resolution failed - dns is down", "error"⟩ : DebugEntry)
      ∈ (ldapTest ⟨"h", "", "", ""⟩ "alice" "pw"
          ⟨.ok "", .gaierror "dns is down", .timeout, none, none,
            some .invalidCredentials, true⟩).logs ∧
    cleanupCount (ldapTest ⟨"h", "", "", ""⟩ "alice" "pw"
        ⟨.ok "", .gaierror "dns is down", .timeout, none, none,
          some .invalidCredentials, true⟩) = 1 :=
  have h := (c8_failures_contained ⟨"h", "", "", ""⟩ "alice" "pw"
    ⟨.ok "", .gaierror "dns is down", .timeout, none, none,
      some .invalidCredentials, true⟩).2.2 (by decide)
  ⟨h.1 "dns is down" rfl, h.2.2.2.2.2.2⟩

/-- C9 (amended): with valid host and credentials, an unparsable
non-empty port string is logged as its own error and the run continues
the full sequence on the default port 389. -/
theorem c9_invalid_port (cfg : Config) (u p : String) (w : World)
    (hv : validInput cfg u p)
    (hne : pyStrip cfg.portRaw ≠ "") (hbad : pythonInt (pyStrip cfg.portRaw) = none) :
    (⟨"ERROR: Invalid LDAP port: " ++ pyStrip cfg.portRaw, "error"⟩ : DebugEntry)
      ∈ (ldapTest cfg u p w).logs ∧
    parsedPort (pyStrip cfg.portRaw) = 389 ∧
    (⟨"Resolving hostname: " ++ pyStrip cfg.host, "info"⟩ : DebugEntry)
      ∈ (ldapTest cfg u p w).logs ∧
    (⟨"Testing TCP connectivity to " ++ hostPort (pyStrip cfg.host) 389,
        "info"⟩ : DebugEntry) ∈ (ldapTest cfg u p w).logs ∧
    cleanupCount (ldapTest cfg u p w) = 1 ∧
    (ldapTest cfg u p w).outcome ≠ .configInvalid := by
  obtain ⟨h1, h2, h3⟩ := hv
  have h389 : parsedPort (pyStrip cfg.portRaw) = 389 := by
    unfold parsedPort
    rw [if_neg hne, hbad]
  refine ⟨?_, h389, ?_, ?_, cleanupCount_valid cfg u p w ⟨h1, h2, h3⟩, ?_⟩
  · unfold ldapTest
    rw [if_neg h1, if_neg (not_or.mpr ⟨h2, h3⟩)]
    simp [preLogs, portParseLogs, hne, hbad]
  · unfold ldapTest
    rw [if_neg h1, if_neg (not_or.mpr ⟨h2, h3⟩)]
    simp [dnsLogs]
  · unfold ldapTest
    rw [if_neg h1, if_neg (not_or.mpr ⟨h2, h3⟩)]
    rw [h389]
    simp [tcpLogs]
  · rw [ne_eq, outcome_configInvalid_iff cfg u p w]
    push_neg
    exact ⟨h1, h2, h3⟩

/-- C9 counterexample: with an invalid port string but an empty host the
run does return `ConfigInvalid`. -/
theorem c9_counterexample :
    pyStrip (Config.mk "" "abc" "" "").portRaw ≠ "" ∧
    pythonInt (pyStrip (Config.mk "" "abc" "" "").portRaw) = none ∧
    (ldapTest ⟨"", "abc", "", ""⟩ "alice" "pw"
        ⟨.ok "", .ok [], .ok, none, none, none, true⟩).outcome = .configInvalid := by
  decide

theorem c9_witness :
    (⟨"ERROR: Invalid LDAP port: " ++ pyStrip (Config.mk "h" "80a" "" "").portRaw,
        "error"⟩ : DebugEntry)
      ∈ (ldapTest ⟨"h", "80a", "", ""⟩ "alice" "pw"
          ⟨.ok "", .ok [], .ok, none, none, none, true⟩).logs ∧
    (ldapTest ⟨"h", "80a", "", ""⟩ "alice" "pw"
        ⟨.ok "", .ok [], .ok, none, none, none, true⟩).outcome ≠ .configInvalid :=
  have h := c9_invalid_port ⟨"h", "80a", "", ""⟩ "alice" "pw"
    ⟨.ok "", .ok [], .ok, none, none, none, true⟩ (by decide) (by decide) (by decide)
  ⟨h.1, h.2.2.2.2.2⟩

/-- C10: with a CA path configured the CA-certificate TLS option is set
to that path for every world, in particular when the CA check failed. -/
theorem c10_ca_option_unconditional (cfg : Config) (u p : String) (w : World)
    (hv : validInput cfg u p) (hca : pyStrip cfg.caCertFile ≠ "") :
    OptEvent.caCertFileOpt .globalOpt (pyStrip cfg.caCertFile)
      ∈ (ldapTest cfg u p w).opts ∧
    (w.initExc = none →
      OptEvent.caCertFileOpt .connOpt (pyStrip cfg.caCertFile)
        ∈ (ldapTest cfg u p w).opts) := by
  obtain ⟨h1, h2, h3⟩ := hv
  unfold ldapTest
  rw [if_neg h1, if_neg (not_or.mpr ⟨h2, h3⟩)]
  constructor
  · simp [caPhase, hca]
  · intro hi
    unfold sessionPhase
    rw [hi]
    cases hssl : (parsedPort (pyStrip cfg.portRaw) == 636) with
    | true => simp [connSetupLogs, hca]
    | false => cases w.startTlsExc <;> simp [connSetupLogs, hca]

theorem c10_witness :
    OptEvent.caCertFileOpt .globalOpt (pyStrip (Config.mk "h" "" "/missing.pem" "").caCertFile)
      ∈ (ldapTest ⟨"h", "", "/missing.pem", ""⟩ "alice" "pw"
          ⟨.notFound, .ok [], .ok, none, none, none, true⟩).opts ∧
    OptEvent.caCertFileOpt .connOpt (pyStrip (Config.mk "h" "" "/missing.pem" "").caCertFile)
      ∈ (ldapTest ⟨"h", "", "/missing.pem", ""⟩ "alice" "pw"
          ⟨.notFound, .ok [], .ok, none, none, none, true⟩).opts :=
  have h := c10_ca_option_unconditional ⟨"h", "", "/missing.pem", ""⟩ "alice" "pw"
    ⟨.notFound, .ok [], .ok, none, none, none, true⟩ (by decide) (by decide)
  ⟨h.1, h.2 rfl⟩
